import Mathlib

/-
  Verification of the run pipeline and progress-tracking engine of the
  netresearch backend.

  Shallow embedding conventions:
  * Python `None` is `Option.none`; a dict read with a fixed key set becomes a
    structure with `Option` fields (`d.get(k)` is the field, `d.get(k, v)` is
    `field.getD v`).
  * External HTTP and LLM calls are oracle functions supplied as parameters;
    per the client contract they absorb transport failures into empty/absent
    results.
  * Exceptions are modelled with `Except`; an exception raised mid-sequence
    carries the store state reached so far (Python mutation does not roll
    back).
  * Machine integers stay `Int`/`Nat`: none of the modelled code overflows.
-/

namespace NetResearch

/-- Python runtime errors surfaced by the modelled code paths. -/
inductive PyError where
  | typeError
  | attributeError
deriving DecidableEq, Repr

/-- Rendering of the error text (`str(e)`); quotes of the CPython message are
omitted, only the fact that the text is embedded verbatim matters below. -/
def PyError.toMessage : PyError → String
  | .typeError => "add_run_step got an unexpected keyword argument professors"
  | .attributeError => "str object has no attribute id"

/-- app/schemas/agent.py `Contact`. -/
structure Contact where
  email : Option String := none
  website : Option String := none
deriving DecidableEq, Repr

/-- app/schemas/agent.py `Paper` (preview projection of a work). -/
structure Paper where
  title : String
  link : Option String := none
  abstract : Option String := none
  publication_year : Option Int := none
  topic : Option String := none
deriving DecidableEq, Repr

/-- app/schemas/agent.py `BasicProfessor` (lightweight summary). -/
structure BasicProfessor where
  name : String
  institution : Option String := none
  description : Option String := none
deriving DecidableEq, Repr

/-- app/schemas/agent.py `GraphNode`. Note the schema declares
`institution: Optional[str]` — a plain string, not an object. -/
structure GraphNode where
  id : String
  name : String
  type : String
  institution : Option String := none
  description : String
  contacts : Contact
  works_count : Option Int := none
  cited_by_count : Option Int := none
  h_index : Option Int := none
  link_orcid : Option String := none
  papers : Option (List Paper) := none
deriving DecidableEq, Repr

/-- app/schemas/agent.py `GraphLink`. -/
structure GraphLink where
  source : String
  target : String
  label : Option String := none
deriving DecidableEq, Repr

/-- app/schemas/agent.py `GraphData`. -/
structure GraphData where
  nodes : List GraphNode
  links : List GraphLink
deriving DecidableEq, Repr

/-- app/schemas/agent.py `Source` (payload of the deprecated `sources` step
field). -/
structure Source where
  title : String
  url : String
  type : String
deriving DecidableEq, Repr

/-- The dict passed as the `filters` step payload by the orchestrator
(topics, geographical_areas, institutions). -/
structure FiltersPayload where
  topics : List String := []
  geographical_areas : List String := []
  institutions : List String := []
deriving DecidableEq, Repr

/-- One entry of the step log as built by `StateManager.add_run_step`:
the five mandatory keys plus the optional payload keys that are attached
only when the corresponding argument is not None. -/
structure StepLog where
  step_id : String
  step_type : String
  message : String
  status : String
  timestamp : String
  details : Option (List (String × String)) := none
  filters : Option FiltersPayload := none
  papers : Option (List Paper) := none
  sources : Option (List Source) := none
deriving DecidableEq, Repr

/-- The optional keyword arguments of `StateManager.add_run_step`. -/
structure StepFields where
  details : Option (List (String × String)) := none
  filters : Option FiltersPayload := none
  papers : Option (List Paper) := none
  sources : Option (List Source) := none
deriving DecidableEq, Repr

/-- One record of `StateManager.run_store`. -/
structure RunRecord where
  run_id : String
  query : String
  cv_id : Option String := none
  max_nodes : Nat := 10
  status : String
  steps : List StepLog
  graph_data : Option GraphData := none
  created_at : String
deriving DecidableEq, Repr

/-- Model of `StateManager.run_store`: a mapping from run id to run record. -/
abbrev Store := String → Option RunRecord

/-- Point update of the store (`self.run_store[run_id] = ...`). -/
def Store.update (st : Store) (id : String) (r : RunRecord) : Store :=
  fun k => if k = id then some r else st k

/-- The empty store. -/
def emptyStore : Store := fun _ => none

/-- Model of `StateManager.create_run`. `now` stands for `datetime.utcnow().isoformat()`. -/
def create_run (st : Store) (run_id query : String) (cv_id : Option String)
    (max_nodes : Nat) (now : String) : Store :=
  st.update run_id
    { run_id := run_id, query := query, cv_id := cv_id, max_nodes := max_nodes
      status := "running", steps := [], graph_data := none, created_at := now }

/-- Model of `StateManager.add_run_step`: appends a step log to the run if the run
exists, else leaves the store unchanged. -/
def add_run_step (st : Store) (run_id step_id step_type message status : String)
    (fields : StepFields) (now : String) : Store :=
  match st run_id with
  | none => st
  | some r =>
      st.update run_id
        { r with steps := r.steps ++
            [{ step_id := step_id, step_type := step_type, message := message
               status := status, timestamp := now, details := fields.details
               filters := fields.filters, papers := fields.papers
               sources := fields.sources }] }

/-- Model of `StateManager.update_run_status`: overwrites the status if the run exists. -/
def update_run_status (st : Store) (run_id status : String) : Store :=
  match st run_id with
  | none => st
  | some r => st.update run_id { r with status := status }

/-- Model of `StateManager.set_run_graph`: overwrites the stored graph if the run exists. -/
def set_run_graph (st : Store) (run_id : String) (graph_data : GraphData) : Store :=
  match st run_id with
  | none => st
  | some r => st.update run_id { r with graph_data := some graph_data }

/-- Step list of a run (`run["steps"]`, empty when the run is unknown). -/
def steps_of_run (st : Store) (run_id : String) : List StepLog :=
  match st run_id with
  | none => []
  | some r => r.steps

/-- Stored graph of a run (`run["graph_data"]`). -/
def graph_of_run (st : Store) (run_id : String) : Option GraphData :=
  match st run_id with
  | none => none
  | some r => r.graph_data

/-
  Python keyword binding for the extraction-step publication.  A call
  `f(**kwargs)` raises `TypeError` before the body of `f` runs whenever a
  keyword name is not among the parameters of `f` (no `**kwargs` catch-all is
  declared on `add_run_step`).
-/

/-- The keyword parameters of `StateManager.add_run_step`, in declaration
order (after `self`). -/
def add_run_step_params : List String :=
  ["run_id", "step_id", "step_type", "message", "status",
   "details", "filters", "papers", "sources"]

/-- A call binds iff every supplied keyword is a declared parameter. -/
def kwargs_bind (params kwargs : List String) : Bool :=
  kwargs.all (fun k => params.contains k)

/-- The keywords the orchestrator supplies in each of the three
extraction-step publications (orchestrator.py `_execute_extraction`). -/
def extraction_call_kwargs : List String :=
  ["run_id", "step_id", "step_type", "message", "professors", "status"]

/-- The extraction-step publication as executed: bind the keywords against
`add_run_step`, then (were binding to succeed) append the step.  The `.ok`
branch is unreachable because `professors` is not a parameter of
`add_run_step`; it is written out to mirror the intended append. -/
def publish_extraction_step (st : Store) (run_id : String)
    (professors : List BasicProfessor) (status : String) (now : String) :
    Except PyError Store :=
  if kwargs_bind add_run_step_params extraction_call_kwargs then
    .ok (add_run_step st run_id "extraction-1" "extraction"
          "Extracting relevant professors..." status {} now)
  else
    .error (.typeError)

/-- Helper: the extraction-step publication always raises `TypeError` and
leaves the store unchanged. -/
theorem publish_extraction_step_eq (st : Store) (run_id : String)
    (professors : List BasicProfessor) (status now : String) :
    publish_extraction_step st run_id professors status now =
      .error .typeError := rfl

/-- C1: the progress publication of the Professor Extraction stage does NOT go
through: `add_run_step` has no `professors` parameter, so every one of the
three extraction-step calls raises `TypeError` at binding time and stores
nothing — contradicting the claim that the registry accepts and stores the
professors payload without raising. -/
theorem extraction_step_publication_raises (st : Store) (run_id : String)
    (professors : List BasicProfessor) (status now : String) :
    publish_extraction_step st run_id professors status now =
      .error .typeError := by
  exact publish_extraction_step_eq st run_id professors status now

/-- C7: registry operations with an unknown run id leave the whole store
unchanged, and on an existing run they modify only the record of that run: every
other run id reads back exactly as before. -/
theorem registry_frame (st : Store)
    (run_id other step_id step_type message status : String)
    (fields : StepFields) (now : String) (g : GraphData) :
    (st run_id = none →
      add_run_step st run_id step_id step_type message status fields now = st ∧
      update_run_status st run_id status = st ∧
      set_run_graph st run_id g = st) ∧
    (other ≠ run_id →
      (add_run_step st run_id step_id step_type message status fields now) other
          = st other ∧
      (update_run_status st run_id status) other = st other ∧
      (set_run_graph st run_id g) other = st other) := by
  constructor
  · intro h
    refine ⟨?_, ?_, ?_⟩ <;>
      simp only [add_run_step, update_run_status, set_run_graph, h]
  · intro h
    refine ⟨?_, ?_, ?_⟩ <;>
      cases hst : st run_id <;>
        simp [add_run_step, update_run_status, set_run_graph, Store.update, hst, h]

/-- A concrete store with a single run, for witnesses. -/
def storeR1 : Store := create_run emptyStore "r1" "robotics" none 10 "t0"

/-- Witness for C7 at concrete inputs: the unknown id `zz` is a no-op and an
append under `r1` leaves `r2` unchanged. -/
theorem registry_frame_witness :
    (add_run_step storeR1 "zz" "s" "intent" "m" "done" {} "t1" = storeR1) ∧
    ((add_run_step storeR1 "r1" "s" "intent" "m" "done" {} "t1") "r2"
        = storeR1 "r2") := by
  refine ⟨((registry_frame storeR1 "zz" "r2" "s" "intent" "m" "done" {} "t1"
      ⟨[], []⟩).1 (by decide)).1, ?_⟩
  exact ((registry_frame storeR1 "r1" "r2" "s" "intent" "m" "done" {} "t1"
      ⟨[], []⟩).2 (by decide)).1

/-
  Catalog records, as projected onto the keys the mappers read.
-/

/-- The `primary_topic` sub-object of a work; `none` also covers a present but
empty (hence falsy) dict. -/
structure PrimaryTopic where
  display_name : Option String := none
deriving DecidableEq, Repr

/-- One `authorships` entry of a work. `author_id` is
`authorship.get("author", {}).get("id")`: `none` when either the `author`
key or its `id` is missing. -/
structure Authorship where
  author_id : Option String := none
deriving DecidableEq, Repr

/-- An OpenAlex work record (the keys read by the mappers). -/
structure Work where
  title : Option String := none
  doi : Option String := none
  publication_year : Option Int := none
  primary_topic : Option PrimaryTopic := none
  authorships : List Authorship := []
deriving DecidableEq, Repr

/-- One `last_known_institutions` entry of an author record. -/
structure InstitutionRecord where
  type : Option String := none
  display_name : Option String := none
deriving DecidableEq, Repr

/-- The `summary_stats` sub-object of an author record; `none` also covers a
present but empty (hence falsy) dict. -/
structure SummaryStats where
  h_index : Option Int := none
deriving DecidableEq, Repr

/-- An OpenAlex author record, as projected onto the keys the mappers read.
`email` is carried to state independence: the mapper never reads it. -/
structure AuthorData where
  id : Option String := none
  display_name : Option String := none
  orcid : Option String := none
  ids_orcid : Option String := none
  works_count : Option Int := none
  cited_by_count : Option Int := none
  summary_stats : Option SummaryStats := none
  last_known_institutions : List InstitutionRecord := []
  email : Option String := none
deriving DecidableEq, Repr

/-- paper_mapper.py `map_openalex_work_to_paper`. -/
def map_openalex_work_to_paper (w : Work) : Paper :=
  { title := w.title.getD "Untitled"
    link := w.doi
    abstract := some "[Abstract to be populated]"
    publication_year := w.publication_year
    topic := w.primary_topic.bind (fun t => t.display_name) }

/-- paper_mapper.py `map_openalex_works_to_papers`. -/
def map_openalex_works_to_papers (works : List Work) : List Paper :=
  works.map map_openalex_work_to_paper

/-- paper_mapper.py `get_preview_papers`. -/
def get_preview_papers (works : List Work) (limit : Nat) : List Paper :=
  map_openalex_works_to_papers (works.take limit)

/-- openalex_client.py `OpenAlexClient.extract_author_id`:
`author_url.split("/")[-1]`. -/
def extract_author_id (author_url : String) : String :=
  (author_url.splitOn "/").getLastD ""

/-- professor_mapper.py `get_education_institution`: the display name of the
first institution whose type is `education`, else of the first institution,
else absent. -/
def get_education_institution (a : AuthorData) : Option String :=
  match a.last_known_institutions.find? (fun inst => inst.type == some "education") with
  | some inst => inst.display_name
  | none =>
      match a.last_known_institutions with
      | [] => none
      | inst :: _ => inst.display_name

/-- professor_mapper.py `map_author_to_graph_node`, description part:
a non-empty institution string is truthy; a works count is appended only
when truthy (present and non-zero). -/
def professor_description (institution : Option String)
    (works_count : Option Int) : String :=
  let base :=
    match institution with
    | some inst => if inst = "" then "Academic researcher" else "Researcher at " ++ inst
    | none => "Academic researcher"
  match works_count with
  | some n => if n = 0 then base else base ++ " with " ++ toString n ++ " publications"
  | none => base

/-- Python `str.lower()`, character by character (the display names handled
here are ASCII, where the two agree). -/
def py_lower (s : String) : String := String.mk (s.data.map Char.toLower)

/-- Python `str.replace(" ", ".")`: a single-character pattern replacement is
a character map. -/
def py_space_to_dot (s : String) : String :=
  String.mk (s.data.map (fun c => if c = ' ' then '.' else c))

/-- professor_mapper.py `map_author_to_graph_node`. -/
def map_author_to_graph_node (a : AuthorData) (author_papers : List Work) :
    GraphNode :=
  let author_id := extract_author_id (a.id.getD "")
  let institution := get_education_institution a
  let papers := map_openalex_works_to_papers (author_papers.take 3)
  let contact : Contact :=
    { email := some
        (py_space_to_dot (py_lower (a.display_name.getD "unknown")) ++ "@example.com")
      website := a.ids_orcid }
  let h_index := a.summary_stats.bind (fun s => s.h_index)
  { id := author_id
    name := a.display_name.getD "Unknown Author"
    type := "professor"
    institution := institution
    description := professor_description institution a.works_count
    contacts := contact
    works_count := a.works_count
    cited_by_count := a.cited_by_count
    h_index := h_index
    link_orcid := a.orcid
    papers := if papers.isEmpty then none else some papers }

/-- professor_mapper.py `map_author_to_basic_professor`. -/
def map_author_to_basic_professor (a : AuthorData) : BasicProfessor :=
  let hStr :=
    match a.summary_stats with
    | none => "N/A"
    | some s =>
        match s.h_index with
        | some n => toString n
        | none => "N/A"
  { name := a.display_name.getD "Unknown Author"
    institution := get_education_institution a
    description := some
      (toString (a.works_count.getD 0) ++ " publications, h-index: " ++ hStr) }

/-
  professor_mapper.py `extract_author_ids_from_papers`.  The Python code keeps
  a `seen_ids` set alongside `author_ids`; the two are appended to together,
  so the set always holds exactly the elements of the list and membership in
  the accumulated list is the same test.
-/

/-- Body of the inner loop: a falsy (missing or empty) author id url is
skipped, otherwise the bare id is appended unless already seen. -/
def insert_author (acc : List String) (a : Authorship) : List String :=
  match a.author_id with
  | none => acc
  | some url =>
      if url = "" then acc
      else
        let author_id := extract_author_id url
        if author_id ∈ acc then acc else acc ++ [author_id]

/-- professor_mapper.py `extract_author_ids_from_papers`: scan at most
`max_papers` works in order, at most `authors_per_paper` authorship entries
each, deduplicating in first-seen order. -/
def extract_author_ids_from_papers (papers : List Work) (max_papers : Nat)
    (authors_per_paper : Nat) : List String :=
  (papers.take max_papers).foldl
    (fun acc p => (p.authorships.take authors_per_paper).foldl insert_author acc)
    []

/-- The bare author id contributed by one authorship entry, if any
(step 1 of the spec: extract the external identifier of each author). -/
def authorship_id (a : Authorship) : Option String :=
  match a.author_id with
  | none => none
  | some url => if url = "" then none else some (extract_author_id url)

/-- Spec-side reading of step 1: the raw (undeduplicated) author ids of the
scanned works, first `authors_per_paper` entries of each, in order. -/
def raw_author_ids (papers : List Work) (authors_per_paper : Nat) : List String :=
  (papers.map (fun p => (p.authorships.take authors_per_paper).filterMap authorship_id)).flatten

/-- Spec-side reading of step 2: first-seen-order deduplication. -/
def first_seen_dedup (l : List String) : List String :=
  l.foldl (fun acc x => if x ∈ acc then acc else acc ++ [x]) []

/-- The dedup insertion step. -/
def dedup_insert (acc : List String) (x : String) : List String :=
  if x ∈ acc then acc else acc ++ [x]

theorem first_seen_dedup_eq_foldl (l : List String) :
    first_seen_dedup l = l.foldl dedup_insert [] := rfl

/-- The inner authorship loop is the dedup fold of the per-entry ids. -/
theorem foldl_insert_author_eq (auths : List Authorship) (acc : List String) :
    auths.foldl insert_author acc =
      (auths.filterMap authorship_id).foldl dedup_insert acc := by
  induction auths generalizing acc with
  | nil => rfl
  | cons a rest ih =>
      cases ha : a.author_id with
      | none =>
          simp [insert_author, authorship_id, ha, List.filterMap_cons, ih]
      | some url =>
          by_cases hurl : url = "" <;>
            simp [insert_author, authorship_id, ha, hurl, List.filterMap_cons,
              dedup_insert, ih]

/-- The scan-and-dedup fold over a list of works is the dedup fold of the
concatenated per-work ids. -/
theorem extract_author_ids_aux (n : Nat) (l : List Work) (acc : List String) :
    l.foldl (fun acc p => (p.authorships.take n).foldl insert_author acc) acc =
      ((l.map (fun p => (p.authorships.take n).filterMap authorship_id)).flatten).foldl
        dedup_insert acc := by
  induction l generalizing acc with
  | nil => rfl
  | cons p rest ih =>
      rw [List.foldl_cons, foldl_insert_author_eq, ih]
      simp [List.foldl_append]

/-- The extraction equals the first-seen dedup of the raw scan. -/
theorem extract_author_ids_eq (papers : List Work) (m n : Nat) :
    extract_author_ids_from_papers papers m n =
      first_seen_dedup (raw_author_ids (papers.take m) n) := by
  rw [first_seen_dedup_eq_foldl]
  unfold extract_author_ids_from_papers raw_author_ids
  exact extract_author_ids_aux n (papers.take m) []

/-- Dedup insertion preserves `Nodup`. -/
theorem dedup_insert_nodup (acc : List String) (x : String)
    (h : acc.Nodup) : (dedup_insert acc x).Nodup := by
  unfold dedup_insert
  by_cases hx : x ∈ acc
  · simpa [hx] using h
  · have hd : acc.Disjoint [x] := by
      intro a ha hb
      rw [List.mem_singleton] at hb
      subst hb
      exact hx ha
    simpa [hx] using h.append (List.nodup_singleton x) hd

/-- Folding dedup insertion preserves `Nodup`. -/
theorem foldl_dedup_nodup (l : List String) (acc : List String)
    (h : acc.Nodup) : (l.foldl dedup_insert acc).Nodup := by
  induction l generalizing acc with
  | nil => exact h
  | cons x rest ih => exact ih _ (dedup_insert_nodup acc x h)

/-- The first-seen dedup of any list is duplicate-free. -/
theorem first_seen_dedup_nodup (l : List String) : (first_seen_dedup l).Nodup :=
  foldl_dedup_nodup l [] List.nodup_nil

/-
  openalex_client.py — the remote endpoints as oracles.  Per the client
  contract every call absorbs transport failures locally: `search_concepts`
  yields `none`, the works searches yield an empty result set, `get_author`
  yields `none`; the oracle codomains express exactly the surfaces the
  callers see.
-/

/-- The JSON response of a works search: the `results` list and the `meta`
object (a key/value list, empty on the fallback path). -/
structure SearchResponse where
  results : List Work := []
  meta : List (String × String) := []
deriving DecidableEq, Repr

/-- The fallback response, in Python "results": [] with "meta": {}. -/
def emptySearchResponse : SearchResponse := { results := [], meta := [] }

/-- The external catalog, as seen through the best-effort calls of the client. -/
structure CatalogOracle where
  searchConcept : String → Option String
  searchWorks : List String → Nat → SearchResponse
  getAuthor : String → Option AuthorData
  getAuthorWorks : String → Nat → List Work

/-- openalex_client.py `get_concept_ids_from_topics`: map each topic through
the concept search, keeping only truthy (non-absent, non-empty) ids in
order. -/
def get_concept_ids_from_topics (oracle : CatalogOracle)
    (topics : List String) : List String :=
  topics.foldl
    (fun acc t =>
      match oracle.searchConcept t with
      | none => acc
      | some cid => if cid = "" then acc else acc ++ [cid])
    []

/-- openalex_client.py `search_papers_by_topics`: resolve topics to concept
ids; empty result set when none resolve, else the works search. -/
def search_papers_by_topics (oracle : CatalogOracle) (topics : List String)
    (per_page : Nat) : SearchResponse :=
  let concept_ids := get_concept_ids_from_topics oracle topics
  if concept_ids.isEmpty then emptySearchResponse
  else oracle.searchWorks concept_ids per_page

/-- agents/models.py `ExtractedFilters`. -/
structure ExtractedFilters where
  topics : List String := []
  geographical_areas : List String := []
  institutions : List String := []
deriving DecidableEq, Repr

/-- search_agent.py `SearchAgent.search_papers`: absent filters or an empty
topic list short-circuit to the empty result set; otherwise fetch
`2 * max_nodes` works by topics. -/
def search_papers (oracle : CatalogOracle) (filters : Option ExtractedFilters)
    (max_nodes : Nat) : SearchResponse :=
  match filters with
  | none => { results := [], meta := [] }
  | some f =>
      if f.topics.isEmpty then { results := [], meta := [] }
      else search_papers_by_topics oracle f.topics (max_nodes * 2)

/-- extraction_agent.py `ExtractionAgent.extract_professors`: extract author
ids from the first `max_nodes` papers (2 authors per paper), then for each id
fetch the author profile (skipping absent ones) and up to 3 recent works, and
map to the parallel node/summary lists. -/
def extract_professors (oracle : CatalogOracle) (papers_data : List Work)
    (max_nodes : Nat) : List GraphNode × List BasicProfessor :=
  if papers_data.isEmpty then ([], [])
  else
    let author_ids := extract_author_ids_from_papers papers_data max_nodes 2
    if author_ids.isEmpty then ([], [])
    else
      author_ids.foldl
        (fun acc author_id =>
          match oracle.getAuthor author_id with
          | none => acc
          | some a =>
              let author_papers := oracle.getAuthorWorks author_id 3
              (acc.1 ++ [map_author_to_graph_node a author_papers],
               acc.2 ++ [map_author_to_basic_professor a]))
        ([], [])

/-- The sequence of author ids `extract_professors` passes to
`get_author` — its fetch loop issues exactly one fetch per element of the
deduplicated id list (also for ids whose profile comes back absent). -/
def author_fetch_calls (papers_data : List Work) (max_nodes : Nat) :
    List String :=
  if papers_data.isEmpty then []
  else
    let author_ids := extract_author_ids_from_papers papers_data max_nodes 2
    if author_ids.isEmpty then [] else author_ids

/-- C6: the candidate id list is exactly the first-seen dedup of the ids
scanned from at most the first `max_nodes` papers (at most the first 2
authorship entries of each, in original order); it is duplicate-free, and
consequently no author id is passed to the author fetch more than once. -/
theorem author_ids_dedup (papers : List Work) (max_nodes : Nat) :
    extract_author_ids_from_papers papers max_nodes 2 =
      first_seen_dedup (raw_author_ids (papers.take max_nodes) 2) ∧
    (extract_author_ids_from_papers papers max_nodes 2).Nodup ∧
    (∀ id, (author_fetch_calls papers max_nodes).count id ≤ 1) := by
  have heq := extract_author_ids_eq papers max_nodes 2
  have hnodup : (extract_author_ids_from_papers papers max_nodes 2).Nodup := by
    rw [heq]; exact first_seen_dedup_nodup _
  refine ⟨heq, hnodup, ?_⟩
  intro id
  have hcalls : (author_fetch_calls papers max_nodes).count id ≤
      (extract_author_ids_from_papers papers max_nodes 2).count id := by
    unfold author_fetch_calls
    by_cases h1 : papers.isEmpty
    · simp [h1]
    · by_cases h2 : (extract_author_ids_from_papers papers max_nodes 2).isEmpty <;>
        simp [h1, h2]
  exact hcalls.trans (List.nodup_iff_count_le_one.mp hnodup id)

/-- C10: the mapper fabricates the professor contact email from the
display name (lowercased, spaces replaced by dots, `@example.com` appended;
`unknown@example.com` when the display name is absent), and the result is
independent of any email carried by the catalog record itself. -/
theorem mapper_fabricated_email (a : AuthorData) (author_papers : List Work) :
    (map_author_to_graph_node a author_papers).contacts.email =
      some ((match a.display_name with
             | some n => py_space_to_dot (py_lower n)
             | none => "unknown") ++ "@example.com") ∧
    (∀ e, map_author_to_graph_node { a with email := e } author_papers =
      map_author_to_graph_node a author_papers) := by
  constructor
  · cases h : a.display_name with
    | none =>
        simp only [map_author_to_graph_node, h, Option.getD_none]
        exact congrArg (fun s => some (s ++ "@example.com")) (by decide)
    | some n => simp [map_author_to_graph_node, h]
  · intro e; rfl

/-- A topic list in which every concept lookup comes back falsy contributes
nothing to the concept-id accumulator. -/
theorem concept_fold_falsy (oracle : CatalogOracle) (topics : List String)
    (acc : List String)
    (h : ∀ t ∈ topics, oracle.searchConcept t = none ∨
      oracle.searchConcept t = some "") :
    topics.foldl
      (fun acc t =>
        match oracle.searchConcept t with
        | none => acc
        | some cid => if cid = "" then acc else acc ++ [cid]) acc = acc := by
  induction topics generalizing acc with
  | nil => rfl
  | cons t rest ih =>
      have hrest : ∀ u ∈ rest, oracle.searchConcept u = none ∨
          oracle.searchConcept u = some "" := fun u hu => h u (by simp [hu])
      rcases h t (by simp) with hc | hc <;>
        simp only [List.foldl_cons, hc, if_pos rfl] <;> exact ih acc hrest

/-- C8: the Paper Search stage returns the empty result set with empty meta,
and does not raise, both when filters are absent or the topic list is empty,
and when no topic resolves to a (truthy) concept identifier. -/
theorem search_empty_results :
    (∀ (oracle : CatalogOracle) (filters : Option ExtractedFilters)
        (max_nodes : Nat),
      (filters = none ∨ ∃ f, filters = some f ∧ f.topics = []) →
      search_papers oracle filters max_nodes = emptySearchResponse) ∧
    (∀ (oracle : CatalogOracle) (topics : List String) (per_page : Nat),
      (∀ t ∈ topics, oracle.searchConcept t = none ∨
        oracle.searchConcept t = some "") →
      search_papers_by_topics oracle topics per_page = emptySearchResponse) := by
  constructor
  · rintro oracle filters mn (rfl | ⟨f, rfl, htop⟩)
    · rfl
    · simp [search_papers, htop, emptySearchResponse]
  · intro oracle topics pp h
    unfold search_papers_by_topics get_concept_ids_from_topics
    rw [concept_fold_falsy oracle topics [] h]
    rfl

/-- A catalog on which every lookup fails or is empty. -/
def nullCatalog : CatalogOracle :=
  { searchConcept := fun _ => none
    searchWorks := fun _ _ => emptySearchResponse
    getAuthor := fun _ => none
    getAuthorWorks := fun _ _ => [] }

/-- Witness for C8: concrete empty-filter, empty-topic and
nothing-resolves cases. -/
theorem search_empty_results_witness :
    search_papers nullCatalog none 10 = emptySearchResponse ∧
    search_papers nullCatalog (some { topics := [] }) 10 = emptySearchResponse ∧
    search_papers_by_topics nullCatalog ["Robotics"] 20 = emptySearchResponse := by
  refine ⟨search_empty_results.1 nullCatalog none 10 (Or.inl rfl),
    search_empty_results.1 nullCatalog (some { topics := [] }) 10
      (Or.inr ⟨_, rfl, rfl⟩),
    search_empty_results.2 nullCatalog ["Robotics"] 20 ?_⟩
  intro t _
  exact Or.inl rfl

/-
  graph_builder.py.  The module already fails to import: it does
  `from app.schemas.agent import ... Institution` and the schemas module
  defines no `Institution`.  The body of `build_graph_links` is modelled as
  written; under the declared schema `GraphNode.institution` is an optional
  STRING, so the grouping test `prof.institution and prof.institution.id`
  evaluates `.id` on a string whenever the institution is truthy and raises
  AttributeError; a falsy institution is skipped, leaving the grouping empty.
-/

/-- The grouping loop of `build_graph_links`: first truthy institution
raises; otherwise every professor is skipped and the groups stay empty. -/
def group_by_institution :
    List GraphNode → Except PyError (List (String × List GraphNode))
  | [] => .ok []
  | p :: rest =>
      match p.institution with
      | some s =>
          if s = "" then group_by_institution rest else .error .attributeError
      | none => group_by_institution rest

/-- Python `max(profs, key=h-index, absent as -1)`: later elements replace
the current maximum only on a strictly greater key, so the first maximum
wins; `none` is the empty-list guard (`if not profs: continue`). -/
def boss_of (profs : List GraphNode) : Option GraphNode :=
  profs.foldl
    (fun best p =>
      match best with
      | none => some p
      | some b =>
          if (p.h_index.getD (-1)) > (b.h_index.getD (-1)) then some p
          else some b)
    none

/-- graph_builder.py `build_graph_links`. -/
def build_graph_links (professor_nodes : List GraphNode) :
    Except PyError (List GraphLink) := do
  let groups ← group_by_institution professor_nodes
  let folded := groups.foldl
    (fun (acc : List GraphLink × List GraphNode) g =>
      match boss_of g.2 with
      | none => acc
      | some boss =>
          (acc.1 ++ (g.2.filter (fun p => p.id != boss.id)).map
              (fun p =>
                { source := boss.id, target := p.id
                  label := some "supervises" }),
           acc.2 ++ [boss]))
    ([], [])
  .ok (folded.1 ++ folded.2.map
    (fun b => { source := "user-node", target := b.id
                label := some "interested_in" }))

/-- graph_builder.py `create_user_node`: the fixed synthetic viewer node. -/
def create_user_node : GraphNode :=
  { id := "user-node"
    name := "User"
    type := "user"
    institution := none
    description := "You - the researcher exploring this network"
    contacts := { email := none, website := none }
    works_count := none
    cited_by_count := none
    h_index := none
    link_orcid := none
    papers := none }

/-- A well-formed professor node with a resolved institution. -/
def prof_mit : GraphNode :=
  { id := "A1"
    name := "Alice"
    type := "professor"
    institution := some "MIT"
    description := "Researcher at MIT"
    contacts := { email := none, website := none }
    h_index := some 40 }

/-- C2 (code bug): on a well-formed singleton group the Relationship Stage
raises AttributeError instead of electing a lead and emitting the
`interested_in` link — `GraphNode.institution` is a plain string, and the
module-level import of the missing `Institution` schema already fails. -/
theorem relationship_stage_attribute_error :
    build_graph_links [prof_mit] = .error .attributeError := by
  rfl

/-- The pure core of `_execute_graph_construction`: all professor nodes plus
exactly one synthetic viewer node, and the relationship links unchanged. -/
def assemble_graph (professor_nodes : List GraphNode)
    (links : List GraphLink) : GraphData :=
  { nodes := professor_nodes ++ [create_user_node], links := links }

/-- C9: Graph Assembly is deterministic and idempotent — it is a pure
function of the professor list and the link list, two runs on the same
inputs agree exactly, the node list is the professor list followed by the
single fixed viewer node, and the link list is passed through unchanged. -/
theorem assemble_graph_deterministic (ps : List GraphNode)
    (ls : List GraphLink) :
    assemble_graph ps ls = assemble_graph ps ls ∧
    (assemble_graph ps ls).nodes = ps ++ [create_user_node] ∧
    (assemble_graph ps ls).links = ls ∧
    (assemble_graph ps ls).nodes.count create_user_node =
      ps.count create_user_node + 1 := by
  refine ⟨rfl, rfl, rfl, ?_⟩
  simp [assemble_graph]

/-
  orchestrator.py.  The five stages run in fixed order; a raised exception
  carries the store reached so far (appends are not rolled back).  The
  orchestrator-internal context fields (`filters`, `papers_data`,
  `professor_nodes`, `links`) are threaded as explicit results.
-/

/-- agents/models.py `AgentContext` (creation-time fields). -/
structure AgentContext where
  run_id : String
  query : String
  cv_id : Option String := none
  max_nodes : Nat := 10
deriving DecidableEq, Repr

/-- One row of the run persistence table (`db.create_run`). -/
structure DBRow where
  run_id : String
  query : String
  graph_data : Option GraphData
deriving DecidableEq, Repr

/-- The per-run outcomes of the external collaborators.  `intent` is
modelled from the spec: `IntentExtractionAgent.extract_with_context`
(app/agents/intent_agent.py, absent from the tree) performs the prompt-based
filter extraction and, per the spec, re-raises on JSON-parse failure or any
exception, so its outcome is an arbitrary `Except`.  `dbSaveOk` is the
best-effort `db.create_run` outcome. -/
structure RunOracle where
  intent : Except String ExtractedFilters
  catalog : CatalogOracle
  dbSaveOk : Bool

/-- The step dict built by `add_run_step`. -/
def mk_step (sid sty msg stat now : String) (fields : StepFields) : StepLog :=
  { step_id := sid, step_type := sty, message := msg, status := stat
    timestamp := now, details := fields.details, filters := fields.filters
    papers := fields.papers, sources := fields.sources }

/-- orchestrator.py `_execute_intent_extraction`: on success publish the
filters payload in-progress then done under `filters-1`; on failure append a
lone done step with the error text and re-raise. -/
def execute_intent_extraction (oracle : RunOracle) (ctx : AgentContext)
    (st : Store) (now : String) :
    Except (String × Store) (Store × ExtractedFilters) :=
  match oracle.intent with
  | .error e =>
      .error (e, add_run_step st ctx.run_id "filters-1" "filters"
        ("Failed to extract filters: " ++ e) "done" {} now)
  | .ok filters =>
      let payload : FiltersPayload :=
        { topics := filters.topics
          geographical_areas := filters.geographical_areas
          institutions := filters.institutions }
      let st1 := add_run_step st ctx.run_id "filters-1" "filters"
        "Understanding your research interests..." "in_progress"
        { filters := some payload } now
      let st2 := add_run_step st1 ctx.run_id "filters-1" "filters"
        "Understanding your research interests..." "done"
        { filters := some payload } now
      .ok (st2, filters)

/-- orchestrator.py `_execute_search`: fetch works, publish a 4-paper
preview in-progress then done under `search-1`.  The search path absorbs
transport failures inside the client, so this stage does not raise (its
except branch is dead in the model). -/
def execute_search (oracle : RunOracle) (ctx : AgentContext)
    (filters : ExtractedFilters) (st : Store) (now : String) :
    Store × List Work :=
  let response := search_papers oracle.catalog (some filters) ctx.max_nodes
  let papers_data := response.results
  let preview := get_preview_papers papers_data 4
  let st1 := add_run_step st ctx.run_id "search-1" "search"
    "Looking for relevant papers..." "in_progress"
    { papers := some preview } now
  let st2 := add_run_step st1 ctx.run_id "search-1" "search"
    "Looking for relevant papers..." "done" { papers := some preview } now
  (st2, papers_data)

/-- orchestrator.py `_execute_extraction`: the first publication (before the
try block) already raises `TypeError`; the two later publications sit inside
the try block, whose handler appends an error step before re-raising. -/
def execute_extraction (oracle : RunOracle) (ctx : AgentContext)
    (papers_data : List Work) (st : Store) (now : String) :
    Except (String × Store) (Store × List GraphNode) :=
  match publish_extraction_step st ctx.run_id [] "in_progress" now with
  | .error e => .error (e.toMessage, st)
  | .ok st1 =>
      let res := extract_professors oracle.catalog papers_data ctx.max_nodes
      match publish_extraction_step st1 ctx.run_id res.2 "in_progress" now with
      | .error e =>
          .error (e.toMessage, add_run_step st1 ctx.run_id "extraction-1"
            "extraction" ("Failed to extract professors: " ++ e.toMessage)
            "done" {} now)
      | .ok st2 =>
          match publish_extraction_step st2 ctx.run_id res.2 "done" now with
          | .error e =>
              .error (e.toMessage, add_run_step st2 ctx.run_id "extraction-1"
                "extraction" ("Failed to extract professors: " ++ e.toMessage)
                "done" {} now)
          | .ok st3 => .ok (st3, res.1)

/-- orchestrator.py `_execute_relationships`: publish in-progress, raise
`ValueError` on an empty professor list, else build links and publish done
(a failure of the link builder itself is appended and re-raised). -/
def execute_relationships (ctx : AgentContext)
    (professor_nodes : List GraphNode) (st : Store) (now : String) :
    Except (String × Store) (Store × List GraphLink) :=
  let st1 := add_run_step st ctx.run_id "relationships-1" "relationships"
    "Analyzing relationships..." "in_progress" {} now
  if professor_nodes.isEmpty then
    .error ("No professor nodes found for relationship building",
      add_run_step st1 ctx.run_id "relationships-1" "relationships"
        ("Failed to build relationships: " ++
          "No professor nodes found for relationship building") "done" {} now)
  else
    match build_graph_links professor_nodes with
    | .error e =>
        .error (e.toMessage, add_run_step st1 ctx.run_id "relationships-1"
          "relationships" ("Failed to build relationships: " ++ e.toMessage)
          "done" {} now)
    | .ok links =>
        .ok (add_run_step st1 ctx.run_id "relationships-1" "relationships"
          "Analyzing relationships..." "done" {} now, links)

/-- orchestrator.py `_execute_graph_construction`: publish in-progress,
store the assembled graph, publish done. -/
def execute_graph_construction (ctx : AgentContext)
    (professor_nodes : List GraphNode) (links : List GraphLink)
    (st : Store) (now : String) : Store :=
  let st1 := add_run_step st ctx.run_id "graph-1" "graph"
    "Building the final graph..." "in_progress" {} now
  let st2 := set_run_graph st1 ctx.run_id (assemble_graph professor_nodes links)
  add_run_step st2 ctx.run_id "graph-1" "graph"
    "Building the final graph..." "done" {} now

/-- orchestrator.py `_log_error`: a lone done step under a fresh
`error-<timestamp>` id with the error text embedded in the message. -/
def log_error (st : Store) (run_id error_message now : String) : Store :=
  add_run_step st run_id ("error-" ++ now) "intent"
    ("Error: " ++ error_message) "done" { sources := some [] } now

/-- orchestrator.py `_save_run_to_database`: a no-op when the run is
unknown; otherwise writes the row unless `db.create_run` fails, in which
case the failure is swallowed. -/
def save_run_to_database (st : Store) (db : List DBRow)
    (run_id query : String) (dbSaveOk : Bool) : List DBRow :=
  match st run_id with
  | none => db
  | some r =>
      if dbSaveOk then
        db ++ [{ run_id := run_id, query := query, graph_data := r.graph_data }]
      else db

/-- The try-block of `ResearchAgentOrchestrator.run`: the five stages in
order; the result pairs the store reached with the raised error text, if
any. -/
def run_body (oracle : RunOracle) (ctx : AgentContext) (st : Store)
    (now : String) : Store × Option String :=
  match execute_intent_extraction oracle ctx st now with
  | .error (e, st1) => (st1, some e)
  | .ok (st1, filters) =>
      let sr := execute_search oracle ctx filters st1 now
      match execute_extraction oracle ctx sr.2 sr.1 now with
      | .error (e, st3) => (st3, some e)
      | .ok (st3, professor_nodes) =>
          match execute_relationships ctx professor_nodes st3 now with
          | .error (e, st4) => (st4, some e)
          | .ok (st4, links) =>
              (execute_graph_construction ctx professor_nodes links st4 now,
               none)

/-- Result of one orchestrator run: the final store, the persistence table,
and whether a persistence attempt was made. -/
structure RunResult where
  store : Store
  db : List DBRow
  saveAttempted : Bool

/-- orchestrator.py `ResearchAgentOrchestrator.run`: on success mark
completed and save; on any exception log the error step, mark completed
anyway, and still attempt the save. -/
def orchestrator_run (oracle : RunOracle) (ctx : AgentContext) (st : Store)
    (db : List DBRow) (now : String) : RunResult :=
  match run_body oracle ctx st now with
  | (st1, none) =>
      let st2 := update_run_status st1 ctx.run_id "completed"
      { store := st2
        db := save_run_to_database st2 db ctx.run_id ctx.query oracle.dbSaveOk
        saveAttempted := true }
  | (st1, some e) =>
      let st2 := log_error st1 ctx.run_id e now
      let st3 := update_run_status st2 ctx.run_id "completed"
      { store := st3
        db := save_run_to_database st3 db ctx.run_id ctx.query oracle.dbSaveOk
        saveAttempted := true }

/-- Reading the appended run back. -/
theorem add_run_step_read_self (st : Store) (rid : String) (r : RunRecord)
    (h : st rid = some r) (sid sty msg stat : String) (fields : StepFields)
    (now : String) :
    (add_run_step st rid sid sty msg stat fields now) rid =
      some { r with steps := r.steps ++ [mk_step sid sty msg stat now fields] } := by
  simp [add_run_step, h, Store.update, mk_step]

/-- Appending a step never creates or deletes a run. -/
theorem add_run_step_isSome (st : Store) (rid sid sty msg stat : String)
    (fields : StepFields) (now k : String) :
    ((add_run_step st rid sid sty msg stat fields now) k).isSome =
      (st k).isSome := by
  cases hst : st rid with
  | none => simp [add_run_step, hst]
  | some r =>
      by_cases hk : k = rid
      · subst hk; simp [add_run_step, hst, Store.update]
      · simp [add_run_step, hst, Store.update, hk]

/-- Reading the status-updated run back. -/
theorem update_run_status_read_self (st : Store) (rid : String)
    (r : RunRecord) (h : st rid = some r) (s : String) :
    (update_run_status st rid s) rid = some { r with status := s } := by
  simp [update_run_status, h, Store.update]

/-- Appending a step never changes the stored graph of any run. -/
theorem add_run_step_graph (st : Store) (rid sid sty msg stat : String)
    (fields : StepFields) (now k : String) :
    graph_of_run (add_run_step st rid sid sty msg stat fields now) k =
      graph_of_run st k := by
  cases hst : st rid with
  | none => simp [add_run_step, hst]
  | some r =>
      by_cases hk : k = rid
      · subst hk; simp [add_run_step, hst, Store.update, graph_of_run]
      · simp [add_run_step, hst, Store.update, graph_of_run, hk]

/-- A status update never changes the stored graph of any run. -/
theorem update_run_status_graph (st : Store) (rid s k : String) :
    graph_of_run (update_run_status st rid s) k = graph_of_run st k := by
  cases hst : st rid with
  | none => simp [update_run_status, hst]
  | some r =>
      by_cases hk : k = rid
      · subst hk; simp [update_run_status, hst, Store.update, graph_of_run]
      · simp [update_run_status, hst, Store.update, graph_of_run, hk]

/-- The extraction stage always fails: its very first publication raises
`TypeError` before the try block, leaving the store as it was. -/
theorem execute_extraction_eq (oracle : RunOracle) (ctx : AgentContext)
    (papers_data : List Work) (st : Store) (now : String) :
    execute_extraction oracle ctx papers_data st now =
      .error (PyError.toMessage .typeError, st) := rfl

/-- The try-block preserves run existence. -/
theorem run_body_isSome (oracle : RunOracle) (ctx : AgentContext)
    (st : Store) (now k : String) :
    (((run_body oracle ctx st now).1) k).isSome = (st k).isSome := by
  cases hint : oracle.intent with
  | error e =>
      simp [run_body, execute_intent_extraction, hint, add_run_step_isSome]
  | ok f =>
      simp [run_body, execute_intent_extraction, execute_search, hint,
        execute_extraction_eq, add_run_step_isSome]

/-- The try-block never changes the stored graph of any run (the graph stage is
unreachable: extraction raises first). -/
theorem run_body_graph (oracle : RunOracle) (ctx : AgentContext)
    (st : Store) (now k : String) :
    graph_of_run (run_body oracle ctx st now).1 k = graph_of_run st k := by
  cases hint : oracle.intent with
  | error e =>
      simp [run_body, execute_intent_extraction, hint, add_run_step_graph]
  | ok f =>
      simp [run_body, execute_intent_extraction, execute_search, hint,
        execute_extraction_eq, add_run_step_graph]

/-- The whole run never changes the stored graph of any run. -/
theorem orchestrator_run_graph (oracle : RunOracle) (ctx : AgentContext)
    (st : Store) (db : List DBRow) (now k : String) :
    graph_of_run (orchestrator_run oracle ctx st db now).store k =
      graph_of_run st k := by
  rcases hbody : run_body oracle ctx st now with ⟨stb, exc⟩
  have h1 : graph_of_run stb k = graph_of_run st k := by
    have h2 := run_body_graph oracle ctx st now k
    rw [hbody] at h2
    exact h2
  cases exc <;>
    simp [orchestrator_run, hbody, log_error, update_run_status_graph,
      add_run_step_graph, h1]

/-- C3: for every run present in the registry and every collaborator
outcome, the run method of the orchestrator leaves the run with status
`completed` (never `running`), always attempts persistence (writing the
stored graph of the run when the save succeeds), and whenever the try-block
raised, the last appended step of the run is the done-status error step whose
message embeds the error text. -/
theorem orchestrator_marks_completed (oracle : RunOracle)
    (ctx : AgentContext) (st : Store) (db : List DBRow) (now : String)
    (r : RunRecord) (h : st ctx.run_id = some r) :
    (∃ r2, (orchestrator_run oracle ctx st db now).store ctx.run_id = some r2 ∧
       r2.status = "completed") ∧
    (orchestrator_run oracle ctx st db now).saveAttempted = true ∧
    (oracle.dbSaveOk = true →
      (orchestrator_run oracle ctx st db now).db =
        db ++ [{ run_id := ctx.run_id, query := ctx.query
                 graph_data := graph_of_run
                   (orchestrator_run oracle ctx st db now).store ctx.run_id }]) ∧
    (∀ e st1, run_body oracle ctx st now = (st1, some e) →
      ∃ r2, (orchestrator_run oracle ctx st db now).store ctx.run_id = some r2 ∧
        r2.steps.getLast? = some (mk_step ("error-" ++ now) "intent"
          ("Error: " ++ e) "done" now { sources := some [] })) := by
  rcases hbody : run_body oracle ctx st now with ⟨stb, exc⟩
  have hex : (stb ctx.run_id).isSome = true := by
    have h2 := run_body_isSome oracle ctx st now ctx.run_id
    rw [hbody] at h2
    simpa [h] using h2
  obtain ⟨rb, hrb⟩ := Option.isSome_iff_exists.mp hex
  cases exc with
  | none =>
      have hread : (update_run_status stb ctx.run_id "completed") ctx.run_id =
          some { rb with status := "completed" } :=
        update_run_status_read_self stb ctx.run_id rb hrb "completed"
      refine ⟨⟨{ rb with status := "completed" }, ?_, rfl⟩, ?_, ?_, ?_⟩
      · simp [orchestrator_run, hbody, hread]
      · simp [orchestrator_run, hbody]
      · intro hsave
        simp [orchestrator_run, hbody, save_run_to_database, hread, hsave,
          graph_of_run]
      · intro e st1 heq
        simp at heq
  | some e =>
      have hread1 : (log_error stb ctx.run_id e now) ctx.run_id =
          some { rb with steps := rb.steps ++
            [mk_step ("error-" ++ now) "intent" ("Error: " ++ e) "done" now
              { sources := some [] }] } :=
        add_run_step_read_self stb ctx.run_id rb hrb _ _ _ _ _ now
      have hread2 : (update_run_status (log_error stb ctx.run_id e now)
          ctx.run_id "completed") ctx.run_id =
          some { rb with steps := rb.steps ++
            [mk_step ("error-" ++ now) "intent" ("Error: " ++ e) "done" now
              { sources := some [] }], status := "completed" } :=
        update_run_status_read_self _ ctx.run_id _ hread1 "completed"
      refine ⟨⟨{ rb with steps := rb.steps ++
          [mk_step ("error-" ++ now) "intent" ("Error: " ++ e) "done" now
            { sources := some [] }], status := "completed" }, ?_, rfl⟩,
        ?_, ?_, ?_⟩
      · simp [orchestrator_run, hbody, hread2]
      · simp [orchestrator_run, hbody]
      · intro hsave
        simp [orchestrator_run, hbody, save_run_to_database, hread2, hsave,
          graph_of_run]
      · intro e1 st1 heq
        obtain ⟨h1, h2⟩ := Prod.mk.inj heq
        obtain rfl := Option.some.inj h2
        refine ⟨{ rb with steps := rb.steps ++
            [mk_step ("error-" ++ now) "intent" ("Error: " ++ e) "done" now
              { sources := some [] }], status := "completed" }, ?_, ?_⟩
        · simp [orchestrator_run, hbody, hread2]
        · simp [List.getLast?_concat]

/-- A run request whose filters resolve to a single topic. -/
def robotics_filters : ExtractedFilters :=
  { topics := ["Robotics"], geographical_areas := [], institutions := [] }

/-- Collaborator outcomes of a run whose intent extraction succeeds. -/
def okOracle : RunOracle :=
  { intent := .ok robotics_filters, catalog := nullCatalog, dbSaveOk := true }

/-- Collaborator outcomes of a run whose intent extraction raises. -/
def badOracle : RunOracle :=
  { intent := .error "boom", catalog := nullCatalog, dbSaveOk := true }

/-- The context of the run created in `storeR1`. -/
def ctx_r1 : AgentContext :=
  { run_id := "r1", query := "robotics", cv_id := none, max_nodes := 10 }

/-- Witness for C3: a concrete run ends completed with persistence
attempted. -/
theorem orchestrator_marks_completed_witness :
    (∃ r2, (orchestrator_run okOracle ctx_r1 storeR1 [] "t0").store
        ctx_r1.run_id = some r2 ∧ r2.status = "completed") ∧
    (orchestrator_run okOracle ctx_r1 storeR1 [] "t0").saveAttempted = true := by
  have h := orchestrator_marks_completed okOracle ctx_r1 storeR1 [] "t0"
    { run_id := "r1", query := "robotics", cv_id := none, max_nodes := 10
      status := "running", steps := [], graph_data := none, created_at := "t0" }
    (by decide)
  exact ⟨h.1, h.2.1⟩

/-- The context of a run with `max_nodes = 0`. -/
def ctx_zero : AgentContext :=
  { run_id := "run-zero", query := "Robotics", cv_id := none, max_nodes := 0 }

/-- A fresh store holding only the `max_nodes = 0` run. -/
def store_zero : Store := create_run emptyStore "run-zero" "Robotics" none 0 "t0"

/-- C4 counterexample: a concrete `max_nodes = 0` run ends with NO stored
graph at all — in particular not the claimed one-node viewer-only graph —
because the extraction-step publication raises `TypeError` and the graph
stage is never reached. -/
theorem max_nodes_zero_no_graph :
    graph_of_run (orchestrator_run okOracle ctx_zero store_zero [] "t0").store
        "run-zero" = none ∧
    graph_of_run (orchestrator_run okOracle ctx_zero store_zero [] "t0").store
        "run-zero" ≠ some { nodes := [create_user_node], links := [] } := by
  have h : graph_of_run
      (orchestrator_run okOracle ctx_zero store_zero [] "t0").store
      "run-zero" = none := by decide
  refine ⟨h, ?_⟩
  rw [h]
  simp

/-- C4 amended: a `max_nodes = 0` run scans zero papers and extracts zero
professors, but no graph is stored: the stored graph of the run stays absent
(the extraction publication raises `TypeError`; even with that fixed, the
relationship stage raises on an empty professor list). -/
theorem max_nodes_zero_amended :
    (∀ (papers : List Work) (n : Nat),
      extract_author_ids_from_papers papers 0 n = []) ∧
    (∀ (oracle : CatalogOracle) (papers : List Work),
      extract_professors oracle papers 0 = ([], [])) ∧
    (∀ (oracle : RunOracle) (ctx : AgentContext) (st : Store)
        (db : List DBRow) (now : String) (r : RunRecord),
      ctx.max_nodes = 0 → st ctx.run_id = some r → r.graph_data = none →
      graph_of_run (orchestrator_run oracle ctx st db now).store ctx.run_id
        = none) := by
  refine ⟨fun papers n => rfl, fun oracle papers => ?_, ?_⟩
  · cases papers <;> rfl
  · intro oracle ctx st db now r hmax hr hg
    rw [orchestrator_run_graph]
    simp [graph_of_run, hr, hg]

/-- Witness for the amended statement of C4 at a concrete input. -/
theorem max_nodes_zero_amended_witness :
    extract_author_ids_from_papers [] 0 2 = [] ∧
    extract_professors nullCatalog [] 0 = ([], []) ∧
    graph_of_run (orchestrator_run okOracle ctx_zero store_zero [] "t0").store
      ctx_zero.run_id = none := by
  refine ⟨max_nodes_zero_amended.1 [] 2,
    max_nodes_zero_amended.2.1 nullCatalog [],
    max_nodes_zero_amended.2.2 okOracle ctx_zero store_zero [] "t0"
      { run_id := "run-zero", query := "Robotics", cv_id := none
        max_nodes := 0, status := "running", steps := [], graph_data := none
        created_at := "t0" }
      rfl (by decide) rfl⟩

/-- The step-ordering invariant of the spec: every append with status `done` is
preceded, earlier in the step list of the same run, by an append with status
`in_progress` under the same `step_id`. -/
def done_preceded (steps : List StepLog) : Prop :=
  ∀ pre s post, steps = pre ++ s :: post → s.status = "done" →
    ∃ t ∈ pre, t.step_id = s.step_id ∧ t.status = "in_progress"

/-- C5 counterexample: in a concrete run whose intent extraction raises,
the very first append under `filters-1` already carries status `done` (and
the top-level error step is likewise a lone done append), violating the
invariant. -/
theorem done_step_without_in_progress :
    ¬ done_preceded (steps_of_run
      (orchestrator_run badOracle ctx_r1 storeR1 [] "t0").store "r1") := by
  intro hinv
  have hsteps : steps_of_run
      (orchestrator_run badOracle ctx_r1 storeR1 [] "t0").store "r1" =
      [mk_step "filters-1" "filters" "Failed to extract filters: boom"
         "done" "t0" {},
       mk_step ("error-" ++ "t0") "intent" "Error: boom" "done" "t0"
         { sources := some [] }] := by decide
  rw [hsteps] at hinv
  obtain ⟨t, ht, -⟩ := hinv [] _ _ rfl rfl
  exact absurd ht (List.not_mem_nil t)

/-- The appends belonging to one step id, in order. -/
def stage_steps (steps : List StepLog) (sid : String) : List StepLog :=
  steps.filter (fun s => s.step_id == sid)

/-- A string starting with `error-` is distinct from `filters-1`. -/
theorem error_id_ne_filters (now : String) :
    ("error-" ++ now) ≠ "filters-1" := by
  intro hcontr
  have h2 : ("error-" ++ now).data.head? =
      ("filters-1" : String).data.head? := by rw [hcontr]
  have h3 : ("error-" ++ now).data.head? = some 'e' := rfl
  rw [h3] at h2
  exact absurd h2 (by decide)

/-- A string starting with `error-` is distinct from `search-1`. -/
theorem error_id_ne_search (now : String) :
    ("error-" ++ now) ≠ "search-1" := by
  intro hcontr
  have h2 : ("error-" ++ now).data.head? =
      ("search-1" : String).data.head? := by rw [hcontr]
  have h3 : ("error-" ++ now).data.head? = some 'e' := rfl
  rw [h3] at h2
  exact absurd h2 (by decide)

theorem beq_error_filters (now : String) :
    (("error-" ++ now) == "filters-1") = false := by
  rw [beq_eq_false_iff_ne]
  exact error_id_ne_filters now

theorem beq_error_search (now : String) :
    (("error-" ++ now) == "search-1") = false := by
  rw [beq_eq_false_iff_ne]
  exact error_id_ne_search now

/-- An in-progress append followed by a done append under the same id
satisfies the ordering invariant. -/
theorem done_preceded_pair (a b : StepLog) (ha : a.status = "in_progress")
    (hid : a.step_id = b.step_id) : done_preceded [a, b] := by
  intro pre s post heq hdone
  cases pre with
  | nil =>
      obtain ⟨rfl, -⟩ := List.cons.inj heq
      rw [ha] at hdone
      exact absurd hdone (by decide)
  | cons x xs =>
      cases xs with
      | nil =>
          obtain ⟨rfl, h2⟩ := List.cons.inj heq
          obtain ⟨rfl, -⟩ := List.cons.inj h2
          exact ⟨a, by simp, hid, ha⟩
      | cons y ys =>
          have hlen := congrArg List.length heq
          simp [List.length_append] at hlen

theorem beq_search_filters : (("search-1" : String) == "filters-1") = false := by
  decide

theorem beq_filters_search : (("filters-1" : String) == "search-1") = false := by
  decide

/-- C5 amended: in every run starting from an empty step list whose intent
extraction succeeds, the appends under the stage ids `filters-1` and
`search-1` respect the invariant — each done append is preceded by an
in-progress append under the same id.  (The invariant fails only on error
appends: a stage that raises before its first publication, and the
top-level orchestrator error step, append a lone done step.) -/
theorem done_preceded_on_success_ids (oracle : RunOracle) (ctx : AgentContext)
    (st : Store) (db : List DBRow) (now : String) (r : RunRecord)
    (h : st ctx.run_id = some r) (hsteps : r.steps = [])
    (f : ExtractedFilters) (hintent : oracle.intent = .ok f) :
    done_preceded (stage_steps (steps_of_run
      (orchestrator_run oracle ctx st db now).store ctx.run_id)
      "filters-1") ∧
    done_preceded (stage_steps (steps_of_run
      (orchestrator_run oracle ctx st db now).store ctx.run_id)
      "search-1") := by
  have hbody : run_body oracle ctx st now =
      (add_run_step (add_run_step (add_run_step (add_run_step st
          ctx.run_id "filters-1" "filters"
          "Understanding your research interests..." "in_progress"
          { filters := some { topics := f.topics
                              geographical_areas := f.geographical_areas
                              institutions := f.institutions } } now)
          ctx.run_id "filters-1" "filters"
          "Understanding your research interests..." "done"
          { filters := some { topics := f.topics
                              geographical_areas := f.geographical_areas
                              institutions := f.institutions } } now)
          ctx.run_id "search-1" "search" "Looking for relevant papers..."
          "in_progress"
          { papers := some (get_preview_papers (search_papers oracle.catalog
              (some f) ctx.max_nodes).results 4) } now)
          ctx.run_id "search-1" "search" "Looking for relevant papers..."
          "done"
          { papers := some (get_preview_papers (search_papers oracle.catalog
              (some f) ctx.max_nodes).results 4) } now,
        some (PyError.toMessage .typeError)) := by
    simp [run_body, execute_intent_extraction, hintent, execute_search,
      execute_extraction_eq]
  have h1 := add_run_step_read_self st ctx.run_id r h "filters-1" "filters"
    "Understanding your research interests..." "in_progress"
    { filters := some { topics := f.topics
                        geographical_areas := f.geographical_areas
                        institutions := f.institutions } } now
  have h2 := add_run_step_read_self _ ctx.run_id _ h1 "filters-1" "filters"
    "Understanding your research interests..." "done"
    { filters := some { topics := f.topics
                        geographical_areas := f.geographical_areas
                        institutions := f.institutions } } now
  have h3 := add_run_step_read_self _ ctx.run_id _ h2 "search-1" "search"
    "Looking for relevant papers..." "in_progress"
    { papers := some (get_preview_papers (search_papers oracle.catalog
        (some f) ctx.max_nodes).results 4) } now
  have h4 := add_run_step_read_self _ ctx.run_id _ h3 "search-1" "search"
    "Looking for relevant papers..." "done"
    { papers := some (get_preview_papers (search_papers oracle.catalog
        (some f) ctx.max_nodes).results 4) } now
  have h5 := add_run_step_read_self _ ctx.run_id _ h4 ("error-" ++ now)
    "intent" ("Error: " ++ PyError.toMessage .typeError) "done"
    { sources := some [] } now
  have h6 := update_run_status_read_self _ ctx.run_id _ h5 "completed"
  have hfinal : stage_steps (steps_of_run
      (orchestrator_run oracle ctx st db now).store ctx.run_id) "filters-1" =
        [mk_step "filters-1" "filters"
           "Understanding your research interests..." "in_progress" now
           { filters := some { topics := f.topics
                               geographical_areas := f.geographical_areas
                               institutions := f.institutions } },
         mk_step "filters-1" "filters"
           "Understanding your research interests..." "done" now
           { filters := some { topics := f.topics
                               geographical_areas := f.geographical_areas
                               institutions := f.institutions } }] ∧
      stage_steps (steps_of_run
      (orchestrator_run oracle ctx st db now).store ctx.run_id) "search-1" =
        [mk_step "search-1" "search" "Looking for relevant papers..."
           "in_progress" now
           { papers := some (get_preview_papers (search_papers oracle.catalog
               (some f) ctx.max_nodes).results 4) },
         mk_step "search-1" "search" "Looking for relevant papers..."
           "done" now
           { papers := some (get_preview_papers (search_papers oracle.catalog
               (some f) ctx.max_nodes).results 4) }] := by
    have hread : steps_of_run
        (orchestrator_run oracle ctx st db now).store ctx.run_id =
        r.steps ++
          [mk_step "filters-1" "filters"
             "Understanding your research interests..." "in_progress" now
             { filters := some { topics := f.topics
                                 geographical_areas := f.geographical_areas
                                 institutions := f.institutions } },
           mk_step "filters-1" "filters"
             "Understanding your research interests..." "done" now
             { filters := some { topics := f.topics
                                 geographical_areas := f.geographical_areas
                                 institutions := f.institutions } },
           mk_step "search-1" "search" "Looking for relevant papers..."
             "in_progress" now
             { papers := some (get_preview_papers (search_papers
                 oracle.catalog (some f) ctx.max_nodes).results 4) },
           mk_step "search-1" "search" "Looking for relevant papers..."
             "done" now
             { papers := some (get_preview_papers (search_papers
                 oracle.catalog (some f) ctx.max_nodes).results 4) },
           mk_step ("error-" ++ now) "intent"
             ("Error: " ++ PyError.toMessage .typeError) "done" now
             { sources := some [] }] := by
      simp only [orchestrator_run, hbody, log_error, steps_of_run, h6]
      simp [List.append_assoc]
    rw [hread, hsteps]
    constructor <;>
      simp [stage_steps, List.filter, mk_step, beq_self_eq_true,
        beq_search_filters, beq_filters_search, beq_error_filters,
        beq_error_search]
  rw [hfinal.1, hfinal.2]
  exact ⟨done_preceded_pair _ _ rfl rfl, done_preceded_pair _ _ rfl rfl⟩

/-- Witness for the amended statement of C5 at a concrete run. -/
theorem done_preceded_on_success_ids_witness :
    done_preceded (stage_steps (steps_of_run
      (orchestrator_run okOracle ctx_r1 storeR1 [] "t0").store
      ctx_r1.run_id) "filters-1") ∧
    done_preceded (stage_steps (steps_of_run
      (orchestrator_run okOracle ctx_r1 storeR1 [] "t0").store
      ctx_r1.run_id) "search-1") :=
  done_preceded_on_success_ids okOracle ctx_r1 storeR1 [] "t0"
    { run_id := "r1", query := "robotics", cv_id := none, max_nodes := 10
      status := "running", steps := [], graph_data := none, created_at := "t0" }
    (by decide) rfl robotics_filters rfl

end NetResearch
